import Mathlib

/-!
# Verification of the vector-multiply benchmark harness

Shallow embedding of `src/host_interface.c`: two element-wise multiply
kernels over vectors of unsigned 16-bit integers (a simulated-hardware
variant and a software variant), a benchmark driver that populates
deterministic inputs, runs both kernels, and compares the outputs
element-wise, a theoretical scaling table, and the entry point.

Modelling conventions:
* A vector of `uint16_t` is a `List Nat`; a store into a `uint16_t` cell
  truncates modulo `2^16` (`U16_MOD`).  The C expression
  `result[i] = vector_a[i] * vector_b[i]` therefore becomes
  `(a.getD i 0 * b.getD i 0) % U16_MOD`.
* Wall-clock timing (`get_time_sec`, `usleep`) has no effect on any
  computed value and is not modelled; the delay in the simulated-hardware
  path only burns time.
* For the frame property a second, address-based model of the kernels is
  given (`multiply_loop_mem`), where memory is `Nat → Nat` and the three
  buffers live at arbitrary base addresses.
* The scaling table uses C `double`s.  For the operands that occur
  (`size` a power of two between 8 and 4096), `8.0 / size` and
  `1.0 + 8.0 / size` are exact in binary floating point and only the final
  division rounds (to within a relative error of `2^-52`); the table is
  modelled exactly over `ℚ`.
-/

-- Configuration (`#define` constants from the C source)
def VECTOR_SIZE : Nat := 8

def DATA_WIDTH : Nat := 16

def NUM_TESTS : Nat := 10000

def LARGE_VECTOR_SIZE : Nat := 1024

def SIMULATION_MODE : Bool := true

/-- `uint16_t` wraparound modulus, `2 ^ DATA_WIDTH = 65536`. -/
def U16_MOD : Nat := 2 ^ DATA_WIDTH

/-- `software_vector_multiply`: the single-threaded CPU loop
`for i in [0,size): result[i] = vector_a[i] * vector_b[i]`, the store
truncating to 16 bits. -/
def software_vector_multiply (vector_a vector_b : List Nat) (size : Nat) :
    List Nat :=
  (List.range size).map fun i => (vector_a.getD i 0 * vector_b.getD i 0) % U16_MOD

/-- `hardware_vector_multiply`: in simulation mode it sleeps (not modelled:
no effect on data) and computes the result for validation; in the
non-simulation branch the C source computes the same loop ("just simulating
the result").  The compile-time flag `SIMULATION_MODE` is a parameter. -/
def hardware_vector_multiply (simulation_mode : Bool)
    (vector_a vector_b : List Nat) (size : Nat) : List Nat :=
  if simulation_mode then
    -- usleep(1) -- minimal delay, no effect on the result
    (List.range size).map fun i => (vector_a.getD i 0 * vector_b.getD i 0) % U16_MOD
  else
    (List.range size).map fun i => (vector_a.getD i 0 * vector_b.getD i 0) % U16_MOD

/-- Input generator of `run_performance_test`:
`vector_a[i] = (i % 100) + 1`. -/
def vector_a_init (vector_size : Nat) : List Nat :=
  (List.range vector_size).map fun i => i % 100 + 1

/-- Input generator of `run_performance_test`:
`vector_b[i] = ((vector_size - i) % 100) + 1` (for `i < vector_size` the C
`int` subtraction is positive, so `Nat` subtraction agrees). -/
def vector_b_init (vector_size : Nat) : List Nat :=
  (List.range vector_size).map fun i => (vector_size - i) % 100 + 1

/-- The verification loop of `run_performance_test`, structurally recursive
in the number `k` of indices still to inspect (the C loop runs `i` from `0`
to `vector_size - 1` and `break`s at the first mismatch, printing the index
and both values).  Returns the `match` flag and the reported mismatch, if
any, as `(index, hw value, sw value)`. -/
def verify_loop (hw_result sw_result : List Nat) :
    Nat → Nat → Bool × Option (Nat × Nat × Nat)
  | _, 0 => (true, none)
  | i, k + 1 =>
    if hw_result.getD i 0 ≠ sw_result.getD i 0 then
      (false, some (i, hw_result.getD i 0, sw_result.getD i 0))
    else
      verify_loop hw_result sw_result (i + 1) k

/-- Element-wise output verification of `run_performance_test`, starting at
index 0 over `vector_size` elements. -/
def verify_results (hw_result sw_result : List Nat) (vector_size : Nat) :
    Bool × Option (Nat × Nat × Nat) :=
  verify_loop hw_result sw_result 0 vector_size

/-- The timed loop `for (j = 0; j < num_tests; j++) kernel(...)`: every
iteration overwrites the whole result buffer with the same kernel output,
starting from the unspecified contents `buf` of the freshly `malloc`ed
buffer. -/
def timed_loop (kernel_output : List Nat) (num_tests : Nat)
    (buf : List Nat) : List Nat :=
  (List.range num_tests).foldl (fun _buf _j => kernel_output) buf

/-- The observable outcome of one `run_performance_test` call (elapsed
times are wall-clock measurements and are not modelled). -/
structure BenchResult where
  size : Nat
  matched : Bool
  mismatch : Option (Nat × Nat × Nat)
deriving DecidableEq, Repr

/-- `run_performance_test`, parameterized by the two kernels so that the
control flow can be analysed for arbitrary kernel outcomes: populate the
input vectors, run each kernel `NUM_TESTS` times into its result buffer,
then verify element-wise. -/
def run_performance_test_gen
    (hw_kernel sw_kernel : List Nat → List Nat → Nat → List Nat)
    (vector_size : Nat) : BenchResult :=
  let vector_a := vector_a_init vector_size
  let vector_b := vector_b_init vector_size
  let hw_result :=
    timed_loop (hw_kernel vector_a vector_b vector_size) NUM_TESTS []
  let sw_result :=
    timed_loop (sw_kernel vector_a vector_b vector_size) NUM_TESTS []
  let v := verify_results hw_result sw_result vector_size
  { size := vector_size, matched := v.1, mismatch := v.2 }

/-- `run_performance_test` with the kernels of the C source
(`SIMULATION_MODE` is 1). -/
def run_performance_test (vector_size : Nat) : BenchResult :=
  run_performance_test_gen
    (hardware_vector_multiply SIMULATION_MODE) software_vector_multiply
    vector_size

/-- Theoretical speedup formula of `show_scaling_performance`:
`size / (1.0 + 8.0 / size)`, modelled over `ℚ`. -/
def theoretical_speedup (size : Nat) : ℚ :=
  (size : ℚ) / (1 + 8 / (size : ℚ))

/-- The loop `for (size = 8; size <= 4096; size *= 2)`, fuel-based (the
fuel strictly exceeds the number of iterations from any start value the
program uses). -/
def scaling_loop : Nat → Nat → List Nat
  | 0, _ => []
  | fuel + 1, size =>
    if size ≤ 4096 then size :: scaling_loop fuel (size * 2) else []

/-- The vector sizes visited by `show_scaling_performance`. -/
def scaling_sizes : List Nat := scaling_loop 4097 8

/-- The rows `(size, speedup)` printed by `show_scaling_performance`. -/
def show_scaling_performance : List (Nat × ℚ) :=
  scaling_sizes.map fun size => (size, theoretical_speedup size)

/-- One observable step of `main`. -/
inductive MainEvent where
  | benchmark : Nat → Bool → MainEvent
  | scaling_table : List Nat → MainEvent
  | exit : Nat → MainEvent
deriving DecidableEq, Repr

/-- The straight-line body of `main`, parameterized by the kernels:
benchmark at `VECTOR_SIZE`, benchmark at `LARGE_VECTOR_SIZE`, print the
scaling table, `return 0`.  No step is conditional on any earlier
outcome. -/
def main_events_gen
    (hw_kernel sw_kernel : List Nat → List Nat → Nat → List Nat) :
    List MainEvent :=
  let r1 := run_performance_test_gen hw_kernel sw_kernel VECTOR_SIZE
  let r2 := run_performance_test_gen hw_kernel sw_kernel LARGE_VECTOR_SIZE
  [MainEvent.benchmark VECTOR_SIZE r1.matched,
   MainEvent.benchmark LARGE_VECTOR_SIZE r2.matched,
   MainEvent.scaling_table scaling_sizes,
   MainEvent.exit 0]

/-- The observable steps of the program's `main`. -/
def main_events : List MainEvent :=
  main_events_gen (hardware_vector_multiply SIMULATION_MODE)
    software_vector_multiply

-- Address-based memory model for the frame property.

/-- A single store into flat memory. -/
def mem_store (m : Nat → Nat) (addr v : Nat) : Nat → Nat :=
  fun x => if x = addr then v else m x

/-- The multiply loop over flat memory: the three buffers live at base
addresses `aBase`, `bBase`, `rBase`; iteration `i` reads `aBase + i` and
`bBase + i` and stores the truncated product at `rBase + i`.  All three C
loops (both branches of `hardware_vector_multiply` and
`software_vector_multiply`) are this statement verbatim. -/
def multiply_loop_mem (aBase bBase rBase size : Nat) (m : Nat → Nat) :
    Nat → Nat :=
  (List.range size).foldl
    (fun mm i =>
      mem_store mm (rBase + i) ((mm (aBase + i) * mm (bBase + i)) % U16_MOD))
    m

/-- `hardware_vector_multiply` over flat memory. -/
def hardware_vector_multiply_mem (simulation_mode : Bool)
    (aBase bBase rBase size : Nat) (m : Nat → Nat) : Nat → Nat :=
  if simulation_mode then
    multiply_loop_mem aBase bBase rBase size m
  else
    multiply_loop_mem aBase bBase rBase size m

/-- `software_vector_multiply` over flat memory. -/
def software_vector_multiply_mem (aBase bBase rBase size : Nat)
    (m : Nat → Nat) : Nat → Nat :=
  multiply_loop_mem aBase bBase rBase size m

example : software_vector_multiply [2, 3] [4, 5] 2 = [8, 15] := by decide

example : verify_results [1, 2] [1, 3] 2 = (false, some (1, 2, 3)) := by decide

example : scaling_sizes = [8, 16, 32, 64, 128, 256, 512, 1024, 2048, 4096] := by decide

example : theoretical_speedup 8 = 4 := by norm_num [theoretical_speedup]

/-! ## Helper lemmas -/

lemma getD_range_map (f : Nat → Nat) (n i : Nat) (h : i < n) :
    ((List.range n).map f).getD i 0 = f i := by
  rw [List.getD_eq_getElem?_getD, List.getElem?_map, List.getElem?_range h]
  rfl

lemma timed_loop_eq (kernel_output : List Nat) (num_tests : Nat)
    (buf : List Nat) (h : 0 < num_tests) :
    timed_loop kernel_output num_tests buf = kernel_output := by
  obtain ⟨m, rfl⟩ : ∃ m, num_tests = m + 1 :=
    ⟨num_tests - 1, by omega⟩
  unfold timed_loop
  rw [List.range_succ, List.foldl_append]
  rfl

lemma verify_loop_of_all_eq (hw_result sw_result : List Nat) :
    ∀ k i, (∀ j, i ≤ j → j < i + k → hw_result.getD j 0 = sw_result.getD j 0) →
      verify_loop hw_result sw_result i k = (true, none) := by
  intro k
  induction k with
  | zero => intro i _h; rfl
  | succ k ih =>
    intro i h
    have heq : hw_result.getD i 0 = sw_result.getD i 0 := h i le_rfl (by omega)
    rw [verify_loop, if_neg (fun hne => hne heq)]
    exact ih (i + 1) (fun j h1 h2 => h j (by omega) (by omega))

lemma verify_loop_first_mismatch (hw_result sw_result : List Nat) :
    ∀ k i t, i ≤ t → t < i + k →
      hw_result.getD t 0 ≠ sw_result.getD t 0 →
      (∀ j, i ≤ j → j < t → hw_result.getD j 0 = sw_result.getD j 0) →
      verify_loop hw_result sw_result i k =
        (false, some (t, hw_result.getD t 0, sw_result.getD t 0)) := by
  intro k
  induction k with
  | zero => intro i t h1 h2 _ _; omega
  | succ k ih =>
    intro i t h1 h2 hne hall
    by_cases hit : i = t
    · subst hit
      rw [verify_loop, if_pos hne]
    · have hlt : i < t := lt_of_le_of_ne h1 hit
      rw [verify_loop, if_neg (fun hne2 => hne2 (hall i le_rfl hlt))]
      exact ih (i + 1) t hlt (by omega) hne (fun j hj1 hj2 => hall j (by omega) hj2)

lemma run_performance_test_gen_eq (vector_size : Nat) :
    run_performance_test_gen (hardware_vector_multiply SIMULATION_MODE)
      software_vector_multiply vector_size =
      { size := vector_size, matched := true, mismatch := none } := by
  have hnt : 0 < NUM_TESTS := by norm_num [NUM_TESTS]
  have hbody :
      verify_results
        (timed_loop (hardware_vector_multiply SIMULATION_MODE
          (vector_a_init vector_size) (vector_b_init vector_size) vector_size)
          NUM_TESTS [])
        (timed_loop (software_vector_multiply
          (vector_a_init vector_size) (vector_b_init vector_size) vector_size)
          NUM_TESTS [])
        vector_size = (true, none) := by
    rw [timed_loop_eq _ _ _ hnt, timed_loop_eq _ _ _ hnt]
    have hk : hardware_vector_multiply SIMULATION_MODE
        (vector_a_init vector_size) (vector_b_init vector_size) vector_size =
        software_vector_multiply
          (vector_a_init vector_size) (vector_b_init vector_size) vector_size := rfl
    rw [hk]
    exact verify_loop_of_all_eq _ _ vector_size 0 (fun j _ _ => rfl)
  simp only [run_performance_test_gen]
  rw [hbody]

/-! ## The claims -/

/-- C1: for every vector size `n` and every pair of input vectors,
`hardware_vector_multiply` and `software_vector_multiply` produce identical
outputs (whatever the simulation-mode flag), so the driver's element-wise
comparison never reports a mismatch. -/
theorem hardware_software_equiv_no_mismatch :
    (∀ (mode : Bool) (a b : List Nat) (n : Nat),
      hardware_vector_multiply mode a b n = software_vector_multiply a b n)
  ∧ (∀ vector_size : Nat,
      (run_performance_test vector_size).matched = true
    ∧ (run_performance_test vector_size).mismatch = none) := by
  constructor
  · intro mode a b n
    cases mode <;> rfl
  · intro vs
    have h : run_performance_test vs =
        { size := vs, matched := true, mismatch := none } :=
      run_performance_test_gen_eq vs
    rw [h]
    exact ⟨rfl, rfl⟩

/-- C2: for every size, every pair of input vectors, and every index
`i < n`, both kernels set `result[i] = (a[i] * b[i]) mod 65536`
(wraparound 16-bit multiplication). -/
theorem kernels_elementwise_mod65536 (mode : Bool) (a b : List Nat)
    (n i : Nat) (h : i < n) :
    (software_vector_multiply a b n).getD i 0 = a.getD i 0 * b.getD i 0 % 65536
  ∧ (hardware_vector_multiply mode a b n).getD i 0 =
      a.getD i 0 * b.getD i 0 % 65536 := by
  have hmod : U16_MOD = 65536 := by norm_num [U16_MOD, DATA_WIDTH]
  have key : ((List.range n).map
      fun j => (a.getD j 0 * b.getD j 0) % U16_MOD).getD i 0 =
      a.getD i 0 * b.getD i 0 % 65536 := by
    rw [getD_range_map _ n i h, hmod]
  refine ⟨key, ?_⟩
  cases mode <;> exact key

/-- C2 witness. -/
theorem kernels_elementwise_mod65536_witness :
    (software_vector_multiply [300, 7] [250, 9] 2).getD 0 0 =
      300 * 250 % 65536
  ∧ (hardware_vector_multiply true [300, 7] [250, 9] 2).getD 0 0 =
      300 * 250 % 65536 :=
  kernels_elementwise_mod65536 true [300, 7] [250, 9] 2 0 (by decide)

/-- C3: the benchmark driver populates the inputs deterministically:
`a[i] = (i mod 100) + 1` and `b[i] = ((n - i) mod 100) + 1` for all
`i < n`. -/
theorem driver_input_generators (n i : Nat) (h : i < n) :
    (vector_a_init n).getD i 0 = i % 100 + 1
  ∧ (vector_b_init n).getD i 0 = (n - i) % 100 + 1 := by
  constructor
  · unfold vector_a_init
    rw [getD_range_map _ n i h]
  · unfold vector_b_init
    rw [getD_range_map _ n i h]

/-- C3 witness. -/
theorem driver_input_generators_witness :
    (vector_a_init 205).getD 150 0 = 150 % 100 + 1
  ∧ (vector_b_init 205).getD 150 0 = (205 - 150) % 100 + 1 :=
  driver_input_generators 205 150 (by decide)

/-- C4: for the driver-generated inputs every element lies in `[1, 100]`,
every element-wise product is at most `10000`, and the kernel result is the
exact product (no 16-bit wraparound occurs). -/
theorem driver_inputs_no_overflow (n i : Nat) (h : i < n) :
    1 ≤ (vector_a_init n).getD i 0 ∧ (vector_a_init n).getD i 0 ≤ 100
  ∧ 1 ≤ (vector_b_init n).getD i 0 ∧ (vector_b_init n).getD i 0 ≤ 100
  ∧ (vector_a_init n).getD i 0 * (vector_b_init n).getD i 0 ≤ 10000
  ∧ (software_vector_multiply (vector_a_init n) (vector_b_init n) n).getD i 0 =
      (vector_a_init n).getD i 0 * (vector_b_init n).getD i 0 := by
  have ha : (vector_a_init n).getD i 0 = i % 100 + 1 := by
    unfold vector_a_init; rw [getD_range_map _ n i h]
  have hb : (vector_b_init n).getD i 0 = (n - i) % 100 + 1 := by
    unfold vector_b_init; rw [getD_range_map _ n i h]
  have ha100 : (vector_a_init n).getD i 0 ≤ 100 := by
    rw [ha]; have := Nat.mod_lt i (show 0 < 100 by norm_num); omega
  have hb100 : (vector_b_init n).getD i 0 ≤ 100 := by
    rw [hb]; have := Nat.mod_lt (n - i) (show 0 < 100 by norm_num); omega
  have hprod : (vector_a_init n).getD i 0 * (vector_b_init n).getD i 0 ≤ 10000 := by
    calc (vector_a_init n).getD i 0 * (vector_b_init n).getD i 0
        ≤ 100 * 100 := Nat.mul_le_mul ha100 hb100
      _ = 10000 := by norm_num
  refine ⟨by rw [ha]; omega, ha100, by rw [hb]; omega, hb100, hprod, ?_⟩
  unfold software_vector_multiply
  rw [getD_range_map _ n i h]
  exact Nat.mod_eq_of_lt (by
    have : U16_MOD = 65536 := by norm_num [U16_MOD, DATA_WIDTH]
    omega)

/-- C4 witness. -/
theorem driver_inputs_no_overflow_witness :
    1 ≤ (vector_a_init 1024).getD 99 0 ∧ (vector_a_init 1024).getD 99 0 ≤ 100
  ∧ 1 ≤ (vector_b_init 1024).getD 99 0 ∧ (vector_b_init 1024).getD 99 0 ≤ 100
  ∧ (vector_a_init 1024).getD 99 0 * (vector_b_init 1024).getD 99 0 ≤ 10000
  ∧ (software_vector_multiply (vector_a_init 1024) (vector_b_init 1024)
      1024).getD 99 0 =
      (vector_a_init 1024).getD 99 0 * (vector_b_init 1024).getD 99 0 :=
  driver_inputs_no_overflow 1024 99 (by decide)

/-- C5: the driver's verification compares the result vectors element-wise
in index order: if all `n` positions agree the match flag stays `true` and
nothing is reported; if some position disagrees, the first (lowest-index)
mismatching index is reported together with both values, the flag is set to
`false`, and no further element is compared. -/
theorem verify_first_mismatch_characterization
    (hw_result sw_result : List Nat) (n : Nat) :
    ((∀ i, i < n → hw_result.getD i 0 = sw_result.getD i 0) →
      verify_results hw_result sw_result n = (true, none))
  ∧ (∀ i, i < n → hw_result.getD i 0 ≠ sw_result.getD i 0 →
      (∀ j, j < i → hw_result.getD j 0 = sw_result.getD j 0) →
      verify_results hw_result sw_result n =
        (false, some (i, hw_result.getD i 0, sw_result.getD i 0))) := by
  constructor
  · intro hall
    exact verify_loop_of_all_eq _ _ n 0 (fun j _ hj => hall j (by omega))
  · intro i hi hne hbefore
    exact verify_loop_first_mismatch _ _ n 0 i (Nat.zero_le i) (by omega) hne
      (fun j _ hj => hbefore j hj)

/-- C5 witness: on `[5, 7, 9]` vs `[5, 8, 6]` the first mismatch, at index
1, is reported with both values. -/
theorem verify_first_mismatch_characterization_witness :
    verify_results [5, 7, 9] [5, 8, 6] 3 = (false, some (1, 7, 8)) :=
  (verify_first_mismatch_characterization [5, 7, 9] [5, 8, 6] 3).2 1
    (by decide) (by decide) (by decide)

/-- C6: whatever the two kernels compute — hence whatever the match flags
of either benchmark run turn out to be — `main` performs every subsequent
step and ends with exit status 0: the event list always contains both
benchmarks, then the scaling table, then `exit 0`, and its last event is
`exit 0`. -/
theorem main_no_abort_exit_zero
    (hw_kernel sw_kernel : List Nat → List Nat → Nat → List Nat) :
    main_events_gen hw_kernel sw_kernel =
      [MainEvent.benchmark VECTOR_SIZE
        (run_performance_test_gen hw_kernel sw_kernel VECTOR_SIZE).matched,
       MainEvent.benchmark LARGE_VECTOR_SIZE
        (run_performance_test_gen hw_kernel sw_kernel LARGE_VECTOR_SIZE).matched,
       MainEvent.scaling_table scaling_sizes,
       MainEvent.exit 0]
  ∧ (main_events_gen hw_kernel sw_kernel).getLast? = some (MainEvent.exit 0) :=
  ⟨rfl, rfl⟩

/-- C7: the scaling report iterates over exactly the sizes
8, 16, ..., 4096 (doubling, both endpoints included), each row carrying the
value `size / (1 + 8/size)`; the entry for size 8 is exactly 4 and the
entry for size 4096 lies strictly between 4088 and 4089. -/
theorem scaling_table_sizes_and_values :
    scaling_sizes = [8, 16, 32, 64, 128, 256, 512, 1024, 2048, 4096]
  ∧ show_scaling_performance =
      scaling_sizes.map (fun size => (size, theoretical_speedup size))
  ∧ theoretical_speedup 8 = 4
  ∧ 4088 < theoretical_speedup 4096 ∧ theoretical_speedup 4096 < 4089 := by
  refine ⟨by decide, rfl, ?_, ?_, ?_⟩ <;> norm_num [theoretical_speedup]

/-- C8: the entry point unconditionally performs, in order, the benchmark
at size `VECTOR_SIZE = 8`, the benchmark at size `LARGE_VECTOR_SIZE = 1024`
(both of which match), and the scaling table, and exits with status 0. -/
theorem main_sequence :
    main_events =
      [MainEvent.benchmark 8 true, MainEvent.benchmark 1024 true,
       MainEvent.scaling_table [8, 16, 32, 64, 128, 256, 512, 1024, 2048, 4096],
       MainEvent.exit 0] := by
  simp only [main_events, main_events_gen, run_performance_test_gen_eq]
  decide

lemma multiply_loop_mem_frame (aBase bBase rBase : Nat) :
    ∀ (size : Nat) (m : Nat → Nat) (addr : Nat),
      (∀ i, i < size → rBase + i ≠ addr) →
      multiply_loop_mem aBase bBase rBase size m addr = m addr := by
  intro size
  induction size with
  | zero => intro m addr _; rfl
  | succ n ih =>
    intro m addr h
    unfold multiply_loop_mem
    rw [List.range_succ, List.foldl_append]
    show mem_store
      ((List.range n).foldl
        (fun mm i =>
          mem_store mm (rBase + i)
            ((mm (aBase + i) * mm (bBase + i)) % U16_MOD)) m)
      (rBase + n) _ addr = m addr
    unfold mem_store
    rw [if_neg (fun heq => h n (Nat.lt_succ_self n) heq.symm)]
    exact ih m addr (fun i hi => h i (by omega))

/-- C9: with the three buffers at pairwise non-overlapping address ranges
(as `malloc` guarantees), neither kernel writes to the input buffers: every
address inside the `a` region or the `b` region holds its pre-call value
after either kernel returns. -/
theorem kernels_preserve_inputs_mem (simulation_mode : Bool)
    (aBase bBase rBase size : Nat) (m : Nat → Nat) (addr : Nat)
    (hsep : ∀ i, i < size → ∀ j, j < size →
      rBase + i ≠ aBase + j ∧ rBase + i ≠ bBase + j)
    (haddr : (∃ j, j < size ∧ addr = aBase + j)
           ∨ (∃ j, j < size ∧ addr = bBase + j)) :
    hardware_vector_multiply_mem simulation_mode aBase bBase rBase size m addr
      = m addr
  ∧ software_vector_multiply_mem aBase bBase rBase size m addr = m addr := by
  have hdisj : ∀ i, i < size → rBase + i ≠ addr := by
    intro i hi
    rcases haddr with ⟨j, hj, rfl⟩ | ⟨j, hj, rfl⟩
    · exact (hsep i hi j hj).1
    · exact (hsep i hi j hj).2
  have key : multiply_loop_mem aBase bBase rBase size m addr = m addr :=
    multiply_loop_mem_frame aBase bBase rBase size m addr hdisj
  refine ⟨?_, key⟩
  cases simulation_mode <;> exact key

/-- C9 witness: buffers at bases 0, 10, 20 of length 3; address 11 inside
the `b` region keeps its value across the hardware and software kernels. -/
theorem kernels_preserve_inputs_mem_witness :
    hardware_vector_multiply_mem true 0 10 20 3 (fun x => x + 1) 11 =
      (fun x => x + 1) 11
  ∧ software_vector_multiply_mem 0 10 20 3 (fun x => x + 1) 11 =
      (fun x => x + 1) 11 :=
  kernels_preserve_inputs_mem true 0 10 20 3 (fun x => x + 1) 11
    (by decide) (Or.inr ⟨1, by decide, by decide⟩)

/-- C10: the result written by `hardware_vector_multiply` does not depend
on the `SIMULATION_MODE` compile-time flag, in the list model and in the
flat-memory model alike. -/
theorem hardware_result_mode_independent (mode1 mode2 : Bool)
    (a b : List Nat) (n : Nat) :
    hardware_vector_multiply mode1 a b n = hardware_vector_multiply mode2 a b n
  ∧ ∀ (aBase bBase rBase size : Nat) (m : Nat → Nat),
      hardware_vector_multiply_mem mode1 aBase bBase rBase size m =
        hardware_vector_multiply_mem mode2 aBase bBase rBase size m := by
  cases mode1 <;> cases mode2 <;> exact ⟨rfl, fun _ _ _ _ _ => rfl⟩
